import Mathlib

/-!
Verification of the resilient request core of `ghostctl`:
retry logic (`ghostctl/utils/retry.py`), JWT token caching
(`ghostctl/utils/auth.py`), and the orchestration in
`ghostctl/client.py`.
-/

namespace Ghostctl

/-- Exception classes used as `expected_exception` by the circuit breaker
(`isinstance` targets). `excRequest` is `requests.exceptions.RequestException`. -/
inductive ExcClass where
  | excAny
  | excRequest
  | excConnection
  deriving DecidableEq, Repr

/-- The exceptions that flow through the retry manager and circuit breaker.
`connectionError`, `timeoutExc` and `httpError` model the
`requests.exceptions` hierarchy (all subclasses of `RequestException`);
`authenticationError`, `maxRetriesExceeded`, `circuitBreakerOpen` model the
`GhostCtlError` hierarchy from `ghostctl/exceptions.py` (subclasses of
`Exception` only); `valueError` models Python's `ValueError`.
`authenticationError` carries the `status_code` from its `details` dict when
one was recorded; `maxRetriesExceeded` carries `attempts` and
`last_exception`. -/
inductive Exc where
  | connectionError
  | timeoutExc
  | httpError (response_status : Option Nat)
  | authenticationError (status_code : Option Nat)
  | maxRetriesExceeded (attempts : Nat) (last_exception : Option Exc)
  | circuitBreakerOpen
  | valueError

/-- Python `isinstance(e, cls)` for the classes above. `RequestException`
covers `ConnectionError`, `Timeout` and `HTTPError`; the `GhostCtlError`
family and `ValueError` derive from `Exception` only. -/
def Exc.isInstance : Exc → ExcClass → Bool
  | _, .excAny => true
  | .connectionError, .excRequest => true
  | .timeoutExc, .excRequest => true
  | .httpError _, .excRequest => true
  | .connectionError, .excConnection => true
  | _, _ => false

/-! ## RetryManager (`ghostctl/utils/retry.py`) -/

/-- Configuration fields of `RetryManager.__init__`. -/
structure RetryConfig where
  max_retries : Nat
  base_delay : ℚ
  max_delay : ℚ
  backoff_factor : ℚ
  jitter : Bool
  deriving DecidableEq, Repr

/-- `RetryManager.should_retry` with the default retry conditions installed by
`_default_retry_conditions`: retry on `ConnectionError`/`Timeout`, and on
`HTTPError` whose response has `status_code >= 500`. -/
def shouldRetry : Exc → Bool
  | .connectionError => true
  | .timeoutExc => true
  | .httpError (some s) => 500 ≤ s
  | _ => false

/-- `RetryManager.calculate_delay`: exponential backoff
`base_delay * backoff_factor ** attempt`, capped at `max_delay`; when
`jitter` is on, `random.random()` returns `r` and `delay * r` is added. -/
def calculateDelay (cfg : RetryConfig) (attempt : Nat) (r : ℚ) : ℚ :=
  let delay := cfg.base_delay * cfg.backoff_factor ^ attempt
  let delay := min delay cfg.max_delay
  if cfg.jitter then delay + delay * r else delay

/-- The body of `RetryManager.execute_with_retry`, one `for attempt in
range(max_retries + 1)` loop iteration per fuel step.  `op attempt` is the
outcome of `operation()` on the given 0-based attempt; `rand attempt` is the
`random.random()` draw used for jitter on that attempt.  Returns the final
outcome together with the list of delays passed to `time.sleep`.  The loop
breaks (with no sleep) when the last attempt failed or the exception is not
retryable, and then raises `MaxRetriesExceededError` with
`attempts = max_retries + 1` and the last exception as cause; the fuel-0
fallthrough corresponds to the loop body never executing (impossible when
started with fuel `max_retries + 1`), where Python would raise with
`last_exception = None`. -/
def runFrom (cfg : RetryConfig) (op : Nat → Except Exc α) (rand : Nat → ℚ) :
    Nat → Nat → Except Exc α × List ℚ
  | _, 0 => (.error (.maxRetriesExceeded (cfg.max_retries + 1) none), [])
  | attempt, fuel + 1 =>
    match op attempt with
    | .ok v => (.ok v, [])
    | .error e =>
      if attempt = cfg.max_retries then
        (.error (.maxRetriesExceeded (cfg.max_retries + 1) (some e)), [])
      else if shouldRetry e then
        let d := calculateDelay cfg attempt (rand attempt)
        let rest := runFrom cfg op rand (attempt + 1) fuel
        (rest.1, d :: rest.2)
      else
        (.error (.maxRetriesExceeded (cfg.max_retries + 1) (some e)), [])

/-- `RetryManager.execute_with_retry`: run the loop from attempt 0 with
`max_retries + 1` iterations available. -/
def executeWithRetry (cfg : RetryConfig) (op : Nat → Except Exc α)
    (rand : Nat → ℚ) : Except Exc α × List ℚ :=
  runFrom cfg op rand 0 (cfg.max_retries + 1)

/-! ## CircuitBreaker (`ghostctl/utils/retry.py`) -/

/-- `CircuitBreakerState`: CLOSED / OPEN / HALF_OPEN. -/
inductive CBState where
  | closed
  | opened
  | halfOpen
  deriving DecidableEq, Repr

/-- The `CircuitBreaker` object: configuration (`failure_threshold`,
`recovery_timeout`, `expected_exception`) plus mutable state (`_state`,
`_failure_count`, `_last_failure_time`). -/
structure CircuitBreaker where
  failure_threshold : Nat
  recovery_timeout : ℚ
  expected_exception : ExcClass
  state : CBState
  failure_count : Nat
  last_failure_time : Option ℚ
  deriving Repr

/-- `CircuitBreaker.__init__`: starts CLOSED with zero failures and no
recorded failure time. -/
def CircuitBreaker.mk0 (failure_threshold : Nat) (recovery_timeout : ℚ)
    (expected_exception : ExcClass) : CircuitBreaker :=
  { failure_threshold := failure_threshold
    recovery_timeout := recovery_timeout
    expected_exception := expected_exception
    state := .closed
    failure_count := 0
    last_failure_time := none }

/-- `CircuitBreaker._reset`: back to CLOSED, zero failures. -/
def CircuitBreaker.reset (b : CircuitBreaker) : CircuitBreaker :=
  { b with state := .closed, failure_count := 0, last_failure_time := none }

/-- `CircuitBreaker._record_failure` at wall-clock time `now`: increment
`_failure_count`, stamp `_last_failure_time`, and open the circuit when the
count reaches `failure_threshold`. -/
def CircuitBreaker.recordFailure (b : CircuitBreaker) (now : ℚ) :
    CircuitBreaker :=
  let b1 := { b with failure_count := b.failure_count + 1,
                     last_failure_time := some now }
  if b.failure_threshold ≤ b1.failure_count then { b1 with state := .opened }
  else b1

/-- `CircuitBreaker._can_attempt_call` at wall-clock time `now`: CLOSED and
HALF_OPEN admit; OPEN admits when no failure time is recorded, or when
`now - last_failure_time >= recovery_timeout`, in which case the state moves
to HALF_OPEN.  Returns the admission flag and the (possibly updated)
breaker. -/
def CircuitBreaker.canAttempt (b : CircuitBreaker) (now : ℚ) :
    Bool × CircuitBreaker :=
  match b.state with
  | .closed => (true, b)
  | .halfOpen => (true, b)
  | .opened =>
    match b.last_failure_time with
    | none => (true, b)
    | some t =>
      if b.recovery_timeout ≤ now - t then (true, { b with state := .halfOpen })
      else (false, b)

/-- Result of one `CircuitBreaker.call`: the outcome delivered to the caller,
the breaker afterwards, and whether `operation()` was actually invoked. -/
inductive CallOutcome (α : Type) where
  | ok (v : α)
  | err (e : Exc)
  | circuitOpen

structure CallRes (α : Type) where
  outcome : CallOutcome α
  breaker : CircuitBreaker
  invoked : Bool

/-- `CircuitBreaker.call`: check admissibility (raising
`CircuitBreakerOpenError` without invoking the operation when denied),
remember `current_state`, run the operation, then do the success/failure
bookkeeping.  `now` is the clock at the admissibility check and `nowFail` the
clock when a failure is recorded.  On success the breaker resets only if
`current_state` was HALF_OPEN; on a failure that is an instance of
`expected_exception`, a HALF_OPEN breaker goes back to OPEN with a fresh
failure time, otherwise `_record_failure` runs; other exceptions are
re-raised with no bookkeeping. -/
def CircuitBreaker.call (b : CircuitBreaker) (now : ℚ) (op : Except Exc α)
    (nowFail : ℚ) : CallRes α :=
  let ca := b.canAttempt now
  if ca.1 then
    let b1 := ca.2
    let current := b1.state
    match op with
    | .ok v =>
      if current = .halfOpen then ⟨.ok v, b1.reset, true⟩
      else ⟨.ok v, b1, true⟩
    | .error e =>
      if e.isInstance b1.expected_exception then
        if current = .halfOpen then
          ⟨.err e, { b1 with state := .opened, last_failure_time := some nowFail },
            true⟩
        else ⟨.err e, b1.recordFailure nowFail, true⟩
      else ⟨.err e, b1, true⟩
  else ⟨.circuitOpen, ca.2, false⟩

/-! ## JWTAuth (`ghostctl/utils/auth.py`) -/

/-- The signed JWT produced by `JWTAuth.generate_token`: header
`{alg: HS256, typ: JWT, kid: key_id}` and payload
`{iss: key_id, aud: "/admin/", iat: now, exp: now + expires_in}` signed over
the hex-decoded secret.  Since `jwt.encode` is deterministic in these inputs,
the token string is represented by its distinguishing fields. -/
structure SignedTok where
  kid : String
  aud : String
  iat : ℤ
  exp : ℤ
  deriving DecidableEq, Repr

/-- The `JWTAuth` object: parsed credential plus token-cache state
(`_token_cache`, `_token_expires_at`, `_cache_stats`). -/
structure JWTAuthState where
  key_id : String
  secret : String
  secret_bytes : List Nat
  token_cache : Option SignedTok
  token_expires_at : Option ℚ
  hits : Nat
  misses : Nat
  deriving Repr

/-- Value of one hex digit, as accepted by Python's `bytes.fromhex`. -/
def hexDigit (c : Char) : Option Nat :=
  if '0' ≤ c ∧ c ≤ '9' then some (c.toNat - '0'.toNat)
  else if 'a' ≤ c ∧ c ≤ 'f' then some (c.toNat - 'a'.toNat + 10)
  else if 'A' ≤ c ∧ c ≤ 'F' then some (c.toNat - 'A'.toNat + 10)
  else none

/-- `bytes.fromhex` on a string without whitespace: pairs of hex digits;
`none` models the `ValueError` raised on an odd-length or non-hex string. -/
def fromhex : List Char → Option (List Nat)
  | [] => some []
  | [_] => none
  | c1 :: c2 :: rest =>
    match hexDigit c1, hexDigit c2, fromhex rest with
    | some h, some l, some bs => some ((h * 16 + l) :: bs)
    | _, _, _ => none

/-- Python `admin_key.split(":", 1)` restricted to the case where a colon is
present: the characters before the first `':'` and everything after it.
`none` when the string has no colon. -/
def splitColon1 : List Char → Option (List Char × List Char)
  | [] => none
  | c :: rest =>
    if c = ':' then some ([], rest)
    else
      match splitColon1 rest with
      | some (a, b) => some (c :: a, b)
      | none => none

/-- The exceptions `JWTAuth.__init__` can raise: `AuthenticationError` for a
missing colon or an empty id/secret part, and the `ValueError` that
`bytes.fromhex` raises on a non-hex secret (propagated unwrapped). -/
inductive InitErr where
  | authenticationError
  | valueError
  deriving DecidableEq, Repr

/-- `JWTAuth.__init__`: require a colon, split once, require both parts
non-empty, hex-decode the secret, and start with an empty token cache and
zeroed cache stats. -/
def JWTAuth.init (admin_key : String) : Except InitErr JWTAuthState :=
  match splitColon1 admin_key.toList with
  | none => .error .authenticationError
  | some (kid, sec) =>
    if kid = [] ∨ sec = [] then .error .authenticationError
    else
      match fromhex sec with
      | none => .error .valueError
      | some bs =>
        .ok { key_id := String.mk kid, secret := String.mk sec,
              secret_bytes := bs, token_cache := none,
              token_expires_at := none, hits := 0, misses := 0 }

/-- The `^[a-f0-9]{24}$` pattern the specification requires of `keyID`
(stated here only to compare against what `JWTAuth.__init__` enforces). -/
def keyIdMatchesHex24 (kid : List Char) : Bool :=
  kid.length = 24 && kid.all fun c => ('a' ≤ c ∧ c ≤ 'f') ∨ ('0' ≤ c ∧ c ≤ '9')

/-- `JWTAuth.generate_token` at wall-clock time `now` (a float; the claims use
`int(time.time())`, i.e. its floor): issue the fixed-claim token. -/
def generateToken (s : JWTAuthState) (now : ℚ) (expires_in : ℤ) : SignedTok :=
  { kid := s.key_id, aud := "/admin/", iat := ⌊now⌋, exp := ⌊now⌋ + expires_in }

/-- Python truthiness of `self._token_expires_at` (a float or `None`). -/
def truthyTime : Option ℚ → Bool
  | none => false
  | some t => t ≠ 0

/-- `JWTAuth.get_valid_token` at wall-clock time `now`: if a (truthy) cached
token exists and a (truthy) expiry is recorded with
`expires_at - now > min_remaining`, count a hit and return it; otherwise
generate a fresh token with the fixed 300-second lifetime, cache it with
`expires_at = now + 300`, count a miss, and return it.  (A cached `SignedTok`
renders as a non-empty JWT string and is therefore always truthy.) -/
def getValidToken (s : JWTAuthState) (now : ℚ) (min_remaining : ℚ) :
    SignedTok × JWTAuthState :=
  let refresh : SignedTok × JWTAuthState :=
    let expires_in : ℤ := 300
    let tok' := generateToken s now expires_in
    (tok', { s with misses := s.misses + 1, token_cache := some tok',
                    token_expires_at := some (now + 300) })
  match s.token_cache with
  | some tok =>
    if truthyTime s.token_expires_at ∧
        (s.token_expires_at.getD 0) - now > min_remaining then
      (tok, { s with hits := s.hits + 1 })
    else refresh
  | none => refresh

/-- `JWTAuth.invalidate_cache`. -/
def invalidateCache (s : JWTAuthState) : JWTAuthState :=
  { s with token_cache := none, token_expires_at := none }

/-! ## Response handling (`ghostctl/client.py` and `ghostctl/utils/auth.py`) -/

/-- The parts of a `requests.Response` the request core reads: the status
code, the JSON body (`none` when `response.json()` raises), and the parsed
`Retry-After` header. -/
structure HttpResponse where
  status_code : Nat
  json : Option String
  retry_after : Option Nat
  deriving DecidableEq, Repr

/-- The errors `GhostClient._handle_response` can raise.  The first six model
the `APIError` subclasses from `ghostctl/exceptions.py`, each carrying the
original `status_code` and `response_data`; `httpStatusError` models the
generic `requests.HTTPError` that `response.raise_for_status()` raises for
4xx statuses with no dedicated branch. -/
inductive ApiErr where
  | badRequestError (status_code : Nat) (response_data : Option String)
  | unauthorizedError (status_code : Nat) (response_data : Option String)
  | forbiddenError (status_code : Nat) (response_data : Option String)
  | notFoundError (status_code : Nat) (response_data : Option String)
  | rateLimitError (status_code : Nat) (response_data : Option String)
      (retry_after : Option Nat)
  | serverError (status_code : Nat) (response_data : Option String)
  | httpStatusError (status_code : Nat)
  deriving DecidableEq, Repr

/-- `GhostClient._handle_response`: extract `error_data` from the body, then
map 400, 401, 403, 404, 422, 429 (carrying `Retry-After` when present) and
`>= 500` to the error taxonomy; any other non-2xx/3xx status falls through to
`response.raise_for_status()`; otherwise return the parsed JSON. -/
def handleResponse (r : HttpResponse) : Except ApiErr (Option String) :=
  let error_data := r.json
  if r.status_code = 400 then .error (.badRequestError r.status_code error_data)
  else if r.status_code = 401 then
    .error (.unauthorizedError r.status_code error_data)
  else if r.status_code = 403 then
    .error (.forbiddenError r.status_code error_data)
  else if r.status_code = 404 then
    .error (.notFoundError r.status_code error_data)
  else if r.status_code = 422 then
    .error (.badRequestError r.status_code error_data)
  else if r.status_code = 429 then
    .error (.rateLimitError r.status_code error_data r.retry_after)
  else if 500 ≤ r.status_code then
    .error (.serverError r.status_code error_data)
  else if 400 ≤ r.status_code then .error (.httpStatusError r.status_code)
  else .ok r.json

/-- One transport exchange as `AuthManager.authenticated_request` sees it:
either a `requests.Response` or a raised `RequestException`. -/
inductive TransportResult where
  | resp (r : HttpResponse)
  | requestExc

/-- Result of `AuthManager.authenticated_request`: the returned JSON or the
raised exception, the number of HTTP exchanges performed, and the `JWTAuth`
state afterwards. -/
structure AReqRes where
  result : Except Exc (Option String)
  exchanges : Nat
  jwt : JWTAuthState

/-- The status-code classification at the tail of
`AuthManager.authenticated_request`: 429, 401, other 4xx and 5xx all raise
`AuthenticationError` (carrying the status code in `details`); 2xx/3xx
return `response.json()`. -/
def classifyAuthResponse (r : HttpResponse) : Except Exc (Option String) :=
  if r.status_code = 429 then .error (.authenticationError (some 429))
  else if r.status_code = 401 then .error (.authenticationError (some 401))
  else if 400 ≤ r.status_code ∧ r.status_code < 500 then
    .error (.authenticationError (some r.status_code))
  else if 500 ≤ r.status_code then
    .error (.authenticationError (some r.status_code))
  else .ok r.json

/-- `AuthManager.authenticated_request` at wall-clock time `now`, for a
manager with a configured `JWTAuth` (`st`).  Admin calls build headers via
`get_valid_token` (default `min_remaining = 60`); content calls use the
content key and never touch the token cache.  `t1` is the outcome of the
first `session.request`; if it is a 401 response and `use_admin_api` is set,
the token cache is invalidated, headers are rebuilt (forcing a fresh token),
and the request is re-sent exactly once with outcome `t2`.  The final
response is classified by `classifyAuthResponse`; a `RequestException` from
the transport is re-raised as `AuthenticationError`. -/
def authenticatedRequest (st : JWTAuthState) (now : ℚ) (use_admin_api : Bool)
    (t1 t2 : TransportResult) : AReqRes :=
  let st1 := if use_admin_api then (getValidToken st now 60).2 else st
  match t1 with
  | .requestExc => ⟨.error (.authenticationError none), 1, st1⟩
  | .resp r1 =>
    if r1.status_code = 401 ∧ use_admin_api then
      let st2 := invalidateCache st1
      let st3 := (getValidToken st2 now 60).2
      match t2 with
      | .requestExc => ⟨.error (.authenticationError none), 2, st3⟩
      | .resp r2 => ⟨classifyAuthResponse r2, 2, st3⟩
    else ⟨classifyAuthResponse r1, 1, st1⟩

/-! ## GhostClient (`ghostctl/client.py`) -/

/-- The `RetryManager` configured in `GhostClient.__init__` with the default
`retry_attempts = 3`. -/
def ghostRetryCfg : RetryConfig :=
  { max_retries := 3, base_delay := 1, max_delay := 30, backoff_factor := 2,
    jitter := true }

/-- The `CircuitBreaker` configured in `GhostClient.__init__`:
`failure_threshold=5`, `recovery_timeout=60.0`,
`expected_exception=requests.exceptions.RequestException`. -/
def ghostBreaker : CircuitBreaker := CircuitBreaker.mk0 5 60 .excRequest

/-- Result of `GhostClient._make_request`: what the caller sees, the shared
circuit breaker afterwards, and whether the wrapped operation ran. -/
structure MakeReqRes (α : Type) where
  outcome : CallOutcome α
  breaker : CircuitBreaker
  invoked : Bool

/-- `GhostClient._make_request`: admin-API calls run
`circuit_breaker.call(lambda: retry_manager.execute_with_retry(op))`;
content-API calls run `retry_manager.execute_with_retry(op)` directly,
never touching the breaker. -/
def makeRequest (b : CircuitBreaker) (now : ℚ) (use_admin_api : Bool)
    (op : Nat → Except Exc α) (rand : Nat → ℚ) : MakeReqRes α :=
  if use_admin_api then
    let r := b.call now (executeWithRetry ghostRetryCfg op rand).1 now
    ⟨r.outcome, r.breaker, r.invoked⟩
  else
    match (executeWithRetry ghostRetryCfg op rand).1 with
    | .ok v => ⟨.ok v, b, true⟩
    | .error e => ⟨.err e, b, true⟩

/-- `k` consecutive `CircuitBreaker.call`s, each of whose operation raises
`e`, all at wall-clock time `now`. -/
def applyQualFailures (b : CircuitBreaker) (e : Exc) (now : ℚ) :
    Nat → CircuitBreaker
  | 0 => b
  | k + 1 =>
    ((applyQualFailures b e now k).call now (.error (α := Unit) e) now).breaker

/-- The `JWTAuth` state parsed from the admin key
`"abcdef123456789012345678:aabbcc"` (fresh cache, zeroed stats). -/
def demoJwt : JWTAuthState :=
  { key_id := "abcdef123456789012345678", secret := "aabbcc",
    secret_bytes := [170, 187, 204], token_cache := none,
    token_expires_at := none, hits := 0, misses := 0 }

/-- The operation `_make_request` hands to the retry manager when every
transport exchange raises a `RequestException`: `authenticated_request`
converts the transport error, so every attempt raises
`AuthenticationError`. -/
def adminTransportFailOp : Nat → Except Exc (Option String) :=
  fun _ => (authenticatedRequest demoJwt 0 true .requestExc .requestExc).result

/-- `n` consecutive admin `_make_request` calls with the same failing
operation, threading the shared circuit breaker. -/
def applyAdminFailures (b : CircuitBreaker) (now : ℚ)
    (op : Nat → Except Exc (Option String)) (rand : Nat → ℚ) :
    Nat → CircuitBreaker
  | 0 => b
  | n + 1 => (makeRequest (applyAdminFailures b now op rand n) now true op
      rand).breaker

/-- A 401 response and a 200 response used in the reauthentication
scenarios. -/
def r401 : HttpResponse := ⟨401, some "unauthorized", none⟩

def rok : HttpResponse := ⟨200, some "posts", none⟩

/-! ## Helper lemmas on the circuit breaker -/

theorem canAttempt_closed (b : CircuitBreaker) (now : ℚ)
    (h : b.state = .closed) : b.canAttempt now = (true, b) := by
  simp [CircuitBreaker.canAttempt, h]

theorem canAttempt_halfOpen (b : CircuitBreaker) (now : ℚ)
    (h : b.state = .halfOpen) : b.canAttempt now = (true, b) := by
  simp [CircuitBreaker.canAttempt, h]

theorem call_closed_ok (b : CircuitBreaker) (now nf : ℚ) (v : α)
    (h : b.state = .closed) :
    b.call now (.ok v) nf = ⟨.ok v, b, true⟩ := by
  simp [CircuitBreaker.call, canAttempt_closed b now h, h]

theorem call_closed_fail (b : CircuitBreaker) (now nf : ℚ) (e : Exc)
    (h : b.state = .closed) (hq : e.isInstance b.expected_exception = true) :
    b.call now (.error (α := α) e) nf = ⟨.err e, b.recordFailure nf, true⟩ := by
  simp [CircuitBreaker.call, canAttempt_closed b now h, h, hq]

theorem call_nonqual_closed (b : CircuitBreaker) (now nf : ℚ) (e : Exc)
    (h : b.state = .closed) (hq : e.isInstance b.expected_exception = false) :
    b.call now (.error (α := α) e) nf = ⟨.err e, b, true⟩ := by
  simp [CircuitBreaker.call, canAttempt_closed b now h, h, hq]

theorem call_halfOpen_ok (b : CircuitBreaker) (now nf : ℚ) (v : α)
    (h : b.state = .halfOpen) :
    b.call now (.ok v) nf = ⟨.ok v, b.reset, true⟩ := by
  simp [CircuitBreaker.call, canAttempt_halfOpen b now h, h]

theorem call_halfOpen_fail (b : CircuitBreaker) (now nf : ℚ) (e : Exc)
    (h : b.state = .halfOpen) (hq : e.isInstance b.expected_exception = true) :
    b.call now (.error (α := α) e) nf
      = ⟨.err e, { b with state := .opened, last_failure_time := some nf },
          true⟩ := by
  simp [CircuitBreaker.call, canAttempt_halfOpen b now h, h, hq]

theorem call_halfOpen_nonqual (b : CircuitBreaker) (now nf : ℚ) (e : Exc)
    (h : b.state = .halfOpen) (hq : e.isInstance b.expected_exception = false) :
    b.call now (.error (α := α) e) nf = ⟨.err e, b, true⟩ := by
  simp [CircuitBreaker.call, canAttempt_halfOpen b now h, h, hq]

theorem canAttempt_open_none (b : CircuitBreaker) (now : ℚ)
    (h : b.state = .opened) (ht : b.last_failure_time = none) :
    b.canAttempt now = (true, b) := by
  simp [CircuitBreaker.canAttempt, h, ht]

theorem canAttempt_open_elapsed (b : CircuitBreaker) (now t : ℚ)
    (h : b.state = .opened) (ht : b.last_failure_time = some t)
    (hge : b.recovery_timeout ≤ now - t) :
    b.canAttempt now = (true, { b with state := .halfOpen }) := by
  simp [CircuitBreaker.canAttempt, h, ht, hge]

theorem canAttempt_open_early (b : CircuitBreaker) (now t : ℚ)
    (h : b.state = .opened) (ht : b.last_failure_time = some t)
    (hlt : now - t < b.recovery_timeout) :
    b.canAttempt now = (false, b) := by
  simp [CircuitBreaker.canAttempt, h, ht, not_le.mpr hlt]

theorem call_open_early (b : CircuitBreaker) (now nf t : ℚ)
    (op : Except Exc α) (h : b.state = .opened)
    (ht : b.last_failure_time = some t)
    (hlt : now - t < b.recovery_timeout) :
    b.call now op nf = ⟨.circuitOpen, b, false⟩ := by
  simp [CircuitBreaker.call, canAttempt_open_early b now t h ht hlt]

theorem recordFailure_below (b : CircuitBreaker) (now : ℚ)
    (h : b.failure_count + 1 < b.failure_threshold) :
    b.recordFailure now
      = { b with failure_count := b.failure_count + 1,
                 last_failure_time := some now } := by
  have h2 : ¬ b.failure_threshold ≤ b.failure_count + 1 := by omega
  simp [CircuitBreaker.recordFailure, h2]

theorem recordFailure_trip (b : CircuitBreaker) (now : ℚ)
    (h : b.failure_threshold ≤ b.failure_count + 1) :
    b.recordFailure now
      = { b with state := .opened, failure_count := b.failure_count + 1,
                 last_failure_time := some now } := by
  simp [CircuitBreaker.recordFailure, h]

theorem recordFailure_state (b : CircuitBreaker) (now : ℚ) :
    (b.recordFailure now).state
      = (if b.failure_threshold ≤ b.failure_count + 1 then CBState.opened
         else b.state) := by
  by_cases h : b.failure_threshold ≤ b.failure_count + 1 <;>
    simp [CircuitBreaker.recordFailure, h]

theorem recordFailure_count (b : CircuitBreaker) (now : ℚ) :
    (b.recordFailure now).failure_count = b.failure_count + 1 := by
  by_cases h : b.failure_threshold ≤ b.failure_count + 1 <;>
    simp [CircuitBreaker.recordFailure, h]

/-- Any change of `state` across one `CircuitBreaker.call` is one of the
allowed moves: Closed→Open on a qualifying failure reaching the threshold,
Open→HalfOpen after the recovery timeout (possibly continuing to Closed on a
success, zeroing the failure count), or HalfOpen→Closed / HalfOpen→Open. -/
theorem call_state_change (b : CircuitBreaker) (now nf : ℚ)
    (op : Except Exc Unit) (hne : (b.call now op nf).breaker.state ≠ b.state) :
    (b.state = .closed ∧ (b.call now op nf).breaker.state = .opened ∧
      (∃ e, op = .error e ∧ e.isInstance b.expected_exception = true) ∧
      (b.call now op nf).breaker.failure_count = b.failure_count + 1 ∧
      b.failure_threshold ≤ b.failure_count + 1) ∨
    (b.state = .opened ∧
      (∃ t, b.last_failure_time = some t ∧ b.recovery_timeout ≤ now - t) ∧
      ((b.call now op nf).breaker.state = .halfOpen ∨
        ((b.call now op nf).breaker.state = .closed ∧
          (b.call now op nf).breaker.failure_count = 0 ∧
          ∃ v, op = .ok v))) ∨
    (b.state = .halfOpen ∧
      (((b.call now op nf).breaker.state = .closed ∧
          (b.call now op nf).breaker.failure_count = 0 ∧ ∃ v, op = .ok v) ∨
        ((b.call now op nf).breaker.state = .opened ∧
          ∃ e, op = .error e ∧ e.isInstance b.expected_exception = true))) := by
  rcases hb : b.state with _ | _ | _
  · -- CLOSED
    left
    rcases op with e | v
    · by_cases hq : e.isInstance b.expected_exception = true
      · rw [call_closed_fail b now nf e hb hq] at hne ⊢
        by_cases hth : b.failure_threshold ≤ b.failure_count + 1
        · refine ⟨rfl, ?_, ⟨e, rfl, hq⟩, recordFailure_count b nf, hth⟩
          rw [recordFailure_state, if_pos hth]
        · rw [hb] at hne
          rw [recordFailure_state, if_neg hth, hb] at hne
          exact absurd rfl hne
      · rw [call_nonqual_closed b now nf e hb (eq_false_of_ne_true hq)] at hne
        rw [hb] at hne
        exact absurd rfl hne
    · rw [call_closed_ok b now nf v hb] at hne
      rw [hb] at hne
      exact absurd rfl hne
  · -- OPEN
    rcases ht : b.last_failure_time with _ | t
    · -- no recorded failure time: the call is admitted but OPEN persists
      exfalso
      have hca := canAttempt_open_none b now hb ht
      rw [hb] at hne
      rcases op with e | v
      · by_cases hq : e.isInstance b.expected_exception = true
        · simp [CircuitBreaker.call, hca, hb, hq, recordFailure_state] at hne
        · simp [CircuitBreaker.call, hca, hb, eq_false_of_ne_true hq] at hne
      · simp [CircuitBreaker.call, hca, hb] at hne
    · by_cases hcmp : b.recovery_timeout ≤ now - t
      · have hca := canAttempt_open_elapsed b now t hb ht hcmp
        right; left
        refine ⟨rfl, ⟨t, rfl, hcmp⟩, ?_⟩
        rcases op with e | v
        · by_cases hq : e.isInstance b.expected_exception = true
          · exfalso
            rw [hb] at hne
            simp [CircuitBreaker.call, hca, hq] at hne
          · left
            simp [CircuitBreaker.call, hca, eq_false_of_ne_true hq]
        · right
          refine ⟨?_, ?_, v, rfl⟩ <;>
            simp [CircuitBreaker.call, hca, CircuitBreaker.reset]
      · rw [call_open_early b now nf t op hb ht (not_le.mp hcmp)] at hne
        rw [hb] at hne
        exact absurd rfl hne
  · -- HALF_OPEN
    right; right
    refine ⟨rfl, ?_⟩
    rcases op with e | v
    · by_cases hq : e.isInstance b.expected_exception = true
      · right
        rw [call_halfOpen_fail b now nf e hb hq]
        exact ⟨rfl, e, rfl, hq⟩
      · rw [call_halfOpen_nonqual b now nf e hb (eq_false_of_ne_true hq)]
          at hne
        rw [hb] at hne
        exact absurd rfl hne
    · left
      rw [call_halfOpen_ok b now nf v hb]
      exact ⟨rfl, rfl, v, rfl⟩

/-- From a fresh breaker, `k ≤ failure_threshold` consecutive qualifying
failures leave exactly `k` counted failures; the breaker stays CLOSED below
the threshold and is OPEN exactly at it. -/
theorem applyQualFailures_spec (T : Nat) (rt now : ℚ) (cls : ExcClass)
    (e : Exc) (hq : e.isInstance cls = true) (hT : 1 ≤ T) :
    ∀ k, k ≤ T →
      applyQualFailures (CircuitBreaker.mk0 T rt cls) e now k
        = { failure_threshold := T, recovery_timeout := rt,
            expected_exception := cls,
            state := if k < T then .closed else .opened,
            failure_count := k,
            last_failure_time := if k = 0 then none else some now } := by
  intro k
  induction k with
  | zero =>
    intro _
    have h0 : 0 < T := hT
    simp [applyQualFailures, CircuitBreaker.mk0, h0]
  | succ k ih =>
    intro hk
    have hkT : k < T := by omega
    have hprev := ih (by omega)
    simp only [applyQualFailures, hprev]
    rw [call_closed_fail _ now now e (by simp [hkT]) (by simpa using hq)]
    by_cases h1 : k + 1 < T
    · have h2 : ¬ T ≤ k + 1 := by omega
      simp [CircuitBreaker.recordFailure, h2, hkT, h1]
    · have h2 : T ≤ k + 1 := by omega
      simp [CircuitBreaker.recordFailure, h2, hkT, h1]

/-! ## Claim C4: retry stop behavior -/

/-- Claim C4 counterexample:  With `max_retries = 3` and an operation that
raises a non-retryable `ValueError` on the very first attempt,
`execute_with_retry` stops immediately with zero sleeps but raises
`MaxRetriesExceededError` with `attempts = max_retries + 1 = 4`, not
`attempt + 1 = 1` as the claim states. -/
theorem retry_attempts_cex :
    executeWithRetry (α := Unit) ⟨3, 1, 60, 2, false⟩
        (fun _ => .error .valueError) (fun _ => 0)
      = (.error (.maxRetriesExceeded 4 (some .valueError)), []) ∧
    (4 : Nat) ≠ 0 + 1 := by
  exact ⟨rfl, by omega⟩

/-- Claim C4 (amended):  If on 0-based attempt `attempt` the operation fails
and either `attempt = max_retries` or no retry condition matches the error,
the run stops with no further attempts and no sleeps and raises
`MaxRetriesExceededError` carrying `attempts = max_retries + 1` (a constant,
independent of the attempt that failed) and the failing error as
`last_exception`; in particular a non-retryable error on the first attempt
raises immediately with `attempts = max_retries + 1` and zero sleeps. -/
theorem retry_raises_max_attempts (cfg : RetryConfig)
    (op : Nat → Except Exc α) (rand : Nat → ℚ) (attempt fuel : Nat) (e : Exc)
    (hfail : op attempt = .error e)
    (hstop : attempt = cfg.max_retries ∨ shouldRetry e = false) :
    runFrom cfg op rand attempt (fuel + 1)
      = (.error (.maxRetriesExceeded (cfg.max_retries + 1) (some e)), []) ∧
    (attempt = 0 →
      executeWithRetry cfg op rand
        = (.error (.maxRetriesExceeded (cfg.max_retries + 1) (some e)),
            [])) := by
  have main : ∀ f, runFrom cfg op rand attempt (f + 1)
      = (.error (.maxRetriesExceeded (cfg.max_retries + 1) (some e)), []) := by
    intro f
    rcases hstop with h | h
    · subst h
      simp [runFrom, hfail]
    · by_cases hmax : attempt = cfg.max_retries
      · subst hmax
        simp [runFrom, hfail]
      · simp [runFrom, hfail, hmax, h]
  refine ⟨main fuel, ?_⟩
  intro h0
  subst h0
  rw [executeWithRetry]
  exact main cfg.max_retries

/-- Closed instance of `retry_raises_max_attempts`: a non-retryable
`ValueError` on attempt 0 under the default configuration. -/
theorem retry_raises_max_attempts_witness :
    runFrom (α := Unit) ⟨3, 1, 60, 2, false⟩ (fun _ => .error .valueError)
        (fun _ => 0) 0 1
      = (.error (.maxRetriesExceeded 4 (some .valueError)), []) :=
  (retry_raises_max_attempts ⟨3, 1, 60, 2, false⟩
    (fun _ => .error .valueError) (fun _ => 0) 0 0 .valueError rfl
    (Or.inr rfl)).1

/-! ## Claim C5: delay calculation -/

/-- Claim C5:  For every attempt, `calculate_delay` with jitter disabled equals
`min(base_delay * backoff_factor ^ attempt, max_delay)` and is monotonically
non-decreasing in the attempt; with jitter enabled and the random draw
`r ∈ [0, 1)` fixed, it equals that base formula times `1 + r`, hence lies in
`[baseFormula, 2 * baseFormula)`. -/
theorem calculate_delay_spec (n : Nat) (base maxd factor r : ℚ) (a b : Nat)
    (hbase : 0 < base) (hmax : 0 < maxd) (hfac : 1 ≤ factor)
    (hr0 : 0 ≤ r) (hr1 : r < 1) (hab : a ≤ b) :
    calculateDelay ⟨n, base, maxd, factor, false⟩ a r
        = min (base * factor ^ a) maxd ∧
    calculateDelay ⟨n, base, maxd, factor, false⟩ a r
        ≤ calculateDelay ⟨n, base, maxd, factor, false⟩ b r ∧
    calculateDelay ⟨n, base, maxd, factor, true⟩ a r
        = min (base * factor ^ a) maxd * (1 + r) ∧
    min (base * factor ^ a) maxd
        ≤ calculateDelay ⟨n, base, maxd, factor, true⟩ a r ∧
    calculateDelay ⟨n, base, maxd, factor, true⟩ a r
        < 2 * min (base * factor ^ a) maxd := by
  have hd : 0 < min (base * factor ^ a) maxd :=
    lt_min (mul_pos hbase (pow_pos (lt_of_lt_of_le one_pos hfac) a)) hmax
  have hjit : calculateDelay ⟨n, base, maxd, factor, true⟩ a r
      = min (base * factor ^ a) maxd * (1 + r) := by
    simp [calculateDelay]
    ring
  refine ⟨by simp [calculateDelay], ?_, hjit, ?_, ?_⟩
  · simp only [calculateDelay]
    exact min_le_min
      (mul_le_mul_of_nonneg_left (pow_le_pow_right₀ hfac hab) hbase.le) le_rfl
  · rw [hjit]
    exact le_mul_of_one_le_right hd.le (by linarith)
  · rw [hjit, mul_comm 2 (min (base * factor ^ a) maxd)]
    exact mul_lt_mul_of_pos_left (by linarith) hd

/-- Closed instance of `calculate_delay_spec` at the client configuration
(base 1, factor 2, cap 30) with `r = 1/2` on attempts 1 and 2. -/
theorem calculate_delay_spec_witness :
    calculateDelay ⟨3, 1, 30, 2, false⟩ 1 (1/2) = min ((1 : ℚ) * 2 ^ 1) 30 :=
  (calculate_delay_spec 3 1 30 2 (1/2) 1 2 (by norm_num) (by norm_num)
    (by norm_num) (by norm_num) (by norm_num) (by norm_num)).1

/-! ## Claim C2: the circuit-breaker state machine -/

/-- Claim C2:  The breaker only makes the allowed transitions (Closed→Open on a
qualifying failure reaching the threshold, Open→HalfOpen once
`recovery_timeout` has elapsed since `last_failure_time` — possibly
continuing to Closed when the probe succeeds — HalfOpen→Closed on success,
HalfOpen→Open on failure); the failure count is 0 whenever a call moves the
state to Closed; from a fresh breaker exactly `failure_threshold`
consecutive qualifying failures accumulate one count each and open the
circuit exactly at the threshold; and while Open before `recovery_timeout`
has elapsed, `call` raises `CircuitBreakerOpenError` without invoking the
operation. -/
theorem circuit_breaker_state_machine
    (T : Nat) (rt now2 : ℚ) (cls : ExcClass) (e : Exc)
    (hq : e.isInstance cls = true) (hT : 1 ≤ T) (hrt : 0 < rt) :
    (∀ (b : CircuitBreaker) (now nf : ℚ) (op : Except Exc Unit),
      (b.call now op nf).breaker.state ≠ b.state →
      (b.state = .closed ∧ (b.call now op nf).breaker.state = .opened ∧
        (∃ e2, op = .error e2 ∧ e2.isInstance b.expected_exception = true) ∧
        (b.call now op nf).breaker.failure_count = b.failure_count + 1 ∧
        b.failure_threshold ≤ b.failure_count + 1) ∨
      (b.state = .opened ∧
        (∃ t, b.last_failure_time = some t ∧ b.recovery_timeout ≤ now - t) ∧
        ((b.call now op nf).breaker.state = .halfOpen ∨
          ((b.call now op nf).breaker.state = .closed ∧
            (b.call now op nf).breaker.failure_count = 0 ∧ ∃ v, op = .ok v))) ∨
      (b.state = .halfOpen ∧
        (((b.call now op nf).breaker.state = .closed ∧
            (b.call now op nf).breaker.failure_count = 0 ∧ ∃ v, op = .ok v) ∨
          ((b.call now op nf).breaker.state = .opened ∧
            ∃ e2, op = .error e2 ∧
              e2.isInstance b.expected_exception = true)))) ∧
    (∀ (b : CircuitBreaker) (now nf : ℚ) (op : Except Exc Unit),
      (b.call now op nf).breaker.state = .closed → b.state ≠ .closed →
      (b.call now op nf).breaker.failure_count = 0) ∧
    (∀ (b : CircuitBreaker) (now nf t : ℚ) (op : Except Exc Unit),
      b.state = .opened → b.last_failure_time = some t →
      now - t < b.recovery_timeout →
      b.call now op nf = ⟨.circuitOpen, b, false⟩) ∧
    (∀ k, k ≤ T →
      ((applyQualFailures (CircuitBreaker.mk0 T rt cls) e now2 k).state
          = if k < T then CBState.closed else CBState.opened) ∧
      (applyQualFailures (CircuitBreaker.mk0 T rt cls) e now2 k).failure_count
          = k) ∧
    ((applyQualFailures (CircuitBreaker.mk0 T rt cls) e now2 T).call now2
        (.error (α := Unit) e) now2
      = ⟨.circuitOpen,
          applyQualFailures (CircuitBreaker.mk0 T rt cls) e now2 T, false⟩) := by
  refine ⟨fun b now nf op hne => call_state_change b now nf op hne,
    ?_, ?_, ?_, ?_⟩
  · intro b now nf op hclosed hne
    have hchange : (b.call now op nf).breaker.state ≠ b.state := by
      rw [hclosed]
      exact fun h => hne h.symm
    rcases call_state_change b now nf op hchange with
      ⟨_, hop, _⟩ | ⟨_, _, hop | ⟨_, hc, _⟩⟩ | ⟨_, ⟨_, hc, _⟩ | ⟨hop, _⟩⟩
    · rw [hclosed] at hop
      exact absurd hop (by simp)
    · rw [hclosed] at hop
      exact absurd hop (by simp)
    · exact hc
    · exact hc
    · rw [hclosed] at hop
      exact absurd hop (by simp)
  · intro b now nf t op hb ht hlt
    exact call_open_early b now nf t op hb ht hlt
  · intro k hk
    rw [applyQualFailures_spec T rt now2 cls e hq hT k hk]
    exact ⟨rfl, rfl⟩
  · rw [applyQualFailures_spec T rt now2 cls e hq hT T le_rfl]
    have hT0 : T ≠ 0 := by omega
    refine call_open_early _ now2 now2 now2 _ ?_ ?_ ?_
    · simp
    · simp [hT0]
    · simpa using hrt

/-- Closed instance of `circuit_breaker_state_machine`: with threshold 2 and
a 60-second recovery window, a third consecutive qualifying failure call is
rejected with `CircuitBreakerOpenError` without invoking the operation. -/
theorem circuit_breaker_state_machine_witness :
    (applyQualFailures (CircuitBreaker.mk0 2 60 .excRequest)
        Exc.connectionError 0 2).call 0
        (.error (α := Unit) Exc.connectionError) 0
      = ⟨.circuitOpen,
          applyQualFailures (CircuitBreaker.mk0 2 60 .excRequest)
            Exc.connectionError 0 2, false⟩ :=
  (circuit_breaker_state_machine 2 60 0 .excRequest .connectionError rfl
    (by norm_num) (by norm_num)).2.2.2.2

/-! ## Claim C3: failure count after a success -/

/-- Claim C3 counterexample:  With threshold 2, one qualifying failure followed
by a successful call leaves `failure_count = 1`, not 0: a success observed in
the Closed state does not reset the count. -/
theorem success_keeps_failure_count_cex :
    (((CircuitBreaker.mk0 2 60 .excRequest).call 0
          (.error (α := Unit) .connectionError) 0).breaker.call 0
        (.ok ()) 0).breaker.failure_count = 1 ∧ (1 : Nat) ≠ 0 := by
  constructor
  · simp [CircuitBreaker.mk0, CircuitBreaker.call, CircuitBreaker.canAttempt,
      CircuitBreaker.recordFailure, Exc.isInstance]
  · omega

/-- Claim C3 (amended):  A successful `call` resets `failure_count` to 0 only
when the pre-call state was HalfOpen; a success in the Closed state leaves
the breaker (including its failure count) unchanged, so qualifying failures
separated by successes still accumulate toward the threshold — concretely,
with threshold 2, failure–success–failure opens the circuit. -/
theorem success_resets_only_half_open (b : CircuitBreaker) (now nf : ℚ) :
    (b.state = .closed → b.call now (.ok ()) nf = ⟨.ok (), b, true⟩) ∧
    (b.state = .halfOpen →
      (b.call now (.ok ()) nf).breaker = b.reset ∧
      (b.call now (.ok ()) nf).breaker.failure_count = 0) ∧
    ((((CircuitBreaker.mk0 2 60 .excRequest).call 0
            (.error (α := Unit) .connectionError) 0).breaker.call 0
          (.ok ()) 0).breaker.call 0
        (.error (α := Unit) .connectionError) 0).breaker.state
      = CBState.opened := by
  refine ⟨fun h => call_closed_ok b now nf () h, fun h => ?_, ?_⟩
  · rw [call_halfOpen_ok b now nf () h]
    exact ⟨rfl, by simp [CircuitBreaker.reset]⟩
  · simp [CircuitBreaker.mk0, CircuitBreaker.call, CircuitBreaker.canAttempt,
      CircuitBreaker.recordFailure, Exc.isInstance]

/-- Closed instance of `success_resets_only_half_open`: a success through a
fresh (Closed) breaker returns the breaker unchanged. -/
theorem success_resets_only_half_open_witness :
    (CircuitBreaker.mk0 2 60 .excRequest).call 0 (.ok ()) 0
      = ⟨.ok (), CircuitBreaker.mk0 2 60 .excRequest, true⟩ :=
  (success_resets_only_half_open (CircuitBreaker.mk0 2 60 .excRequest) 0
    0).1 rfl

/-! ## Claim C10: non-qualifying exceptions -/

/-- Claim C10 counterexample:  A non-qualifying exception does not always leave
`state` untouched: a breaker that is Open past its recovery window moves to
HalfOpen during the admissibility check, and stays HalfOpen when the
operation then raises a `ValueError`. -/
theorem non_expected_exception_state_cex :
    ((⟨5, 60, .excRequest, .opened, 5, some 0⟩ : CircuitBreaker).call 60
        (.error (α := Unit) .valueError) 60).breaker.state = CBState.halfOpen ∧
    CBState.halfOpen ≠ CBState.opened := by
  constructor
  · norm_num [CircuitBreaker.call, CircuitBreaker.canAttempt, Exc.isInstance]
  · simp

/-- Claim C10 (amended):  For an exception that is not an instance of
`expected_exception`, `call` re-raises it (when the operation was invoked at
all) and records no failure: `failure_count` and `last_failure_time` are
exactly as before, and `state` is unchanged except for the Open→HalfOpen
probe transition performed by the admissibility check before the operation
runs. -/
theorem non_expected_exception_frame (b : CircuitBreaker) (now nf : ℚ)
    (e : Exc) (hq : e.isInstance b.expected_exception = false) :
    (b.call now (.error (α := Unit) e) nf).breaker.failure_count
        = b.failure_count ∧
    (b.call now (.error (α := Unit) e) nf).breaker.last_failure_time
        = b.last_failure_time ∧
    ((b.call now (.error (α := Unit) e) nf).breaker.state = b.state ∨
      (b.state = .opened ∧
        (b.call now (.error (α := Unit) e) nf).breaker.state = .halfOpen ∧
        ∃ t, b.last_failure_time = some t ∧ b.recovery_timeout ≤ now - t)) ∧
    ((b.call now (.error (α := Unit) e) nf).invoked = true →
      (b.call now (.error (α := Unit) e) nf).outcome = .err e) := by
  rcases hb : b.state with _ | _ | _
  · rw [call_nonqual_closed b now nf e hb hq]
    exact ⟨rfl, rfl, Or.inl hb, fun _ => rfl⟩
  · rcases ht : b.last_failure_time with _ | t
    · have hca := canAttempt_open_none b now hb ht
      refine ⟨?_, ?_, Or.inl ?_, fun _ => ?_⟩ <;>
        simp [CircuitBreaker.call, hca, hq, hb, ht]
    · by_cases hcmp : b.recovery_timeout ≤ now - t
      · have hca := canAttempt_open_elapsed b now t hb ht hcmp
        refine ⟨?_, ?_, Or.inr ⟨rfl, ?_, t, rfl, hcmp⟩, fun _ => ?_⟩ <;>
          simp [CircuitBreaker.call, hca, hq, ht]
      · rw [call_open_early b now nf t _ hb ht (not_le.mp hcmp)]
        refine ⟨rfl, ht, Or.inl hb, by simp⟩
  · rw [call_halfOpen_nonqual b now nf e hb hq]
    exact ⟨rfl, rfl, Or.inl hb, fun _ => rfl⟩

/-- Closed instance of `non_expected_exception_frame`: a `ValueError`
through the client breaker leaves the failure count at 0. -/
theorem non_expected_exception_frame_witness :
    (ghostBreaker.call 0 (.error (α := Unit) .valueError)
        0).breaker.failure_count = ghostBreaker.failure_count :=
  (non_expected_exception_frame ghostBreaker 0 0 .valueError rfl).1

/-! ## Claims C1 and C7: the composed admin request path -/

/-- Every failure surfaced by `execute_with_retry` is a
`MaxRetriesExceededError` (the loop converts whatever the operation raised). -/
theorem runFrom_error_shape (cfg : RetryConfig) (op : Nat → Except Exc α)
    (rand : Nat → ℚ) :
    ∀ fuel attempt e, (runFrom cfg op rand attempt fuel).1 = .error e →
      ∃ n c, e = .maxRetriesExceeded n c := by
  intro fuel
  induction fuel with
  | zero =>
    intro attempt e h
    simp [runFrom] at h
    exact ⟨_, _, h.symm⟩
  | succ fuel ih =>
    intro attempt e h
    rcases hop : op attempt with e2 | v
    · by_cases hmax : attempt = cfg.max_retries
      · subst hmax
        simp [runFrom, hop] at h
        exact ⟨_, _, h.symm⟩
      · by_cases hsr : shouldRetry e2 = true
        · simp [runFrom, hop, hmax, hsr] at h
          exact ih (attempt + 1) e h
        · simp [runFrom, hop, hmax, hsr] at h
          exact ⟨_, _, h.symm⟩
    · simp [runFrom, hop] at h

/-- A failing admin `_make_request` through a Closed breaker whose
`expected_exception` is `RequestException` leaves the breaker untouched:
the `MaxRetriesExceededError` it observes is a `GhostCtlError`, not a
`RequestException`. -/
theorem makeRequest_admin_closed_frame (b : CircuitBreaker) (now : ℚ)
    (op : Nat → Except Exc (Option String)) (rand : Nat → ℚ)
    (hb : b.state = .closed) (hexp : b.expected_exception = .excRequest) :
    (makeRequest b now true op rand).breaker = b ∧
    (makeRequest b now true op rand).invoked = true := by
  rcases hres : (executeWithRetry ghostRetryCfg op rand).1 with e | v
  · obtain ⟨n, c, rfl⟩ :=
      runFrom_error_shape ghostRetryCfg op rand _ _ _ hres
    have hq : (Exc.maxRetriesExceeded n c).isInstance b.expected_exception
        = false := by
      rw [hexp]; rfl
    simp [makeRequest, hres, call_nonqual_closed b now now _ hb hq]
  · simp [makeRequest, hres, call_closed_ok b now now v hb]

/-- Claim C1 (code bug):  Five consecutive admin calls whose every transport
attempt fails leave the shared breaker exactly in its initial state (no
failure is ever counted, because the breaker only expects
`RequestException` while the wrapped operation always raises
`MaxRetriesExceededError`); the sixth call still invokes the operation and
surfaces the retry error instead of `CircuitBreakerOpenError`.  Content-API
calls do bypass the breaker. -/
theorem admin_breaker_never_trips :
    applyAdminFailures ghostBreaker 0 adminTransportFailOp (fun _ => 0) 5
        = ghostBreaker ∧
    (makeRequest ghostBreaker 0 true adminTransportFailOp
        (fun _ => 0)).invoked = true ∧
    (makeRequest ghostBreaker 0 true adminTransportFailOp
        (fun _ => 0)).outcome
      = .err (.maxRetriesExceeded 4 (some (.authenticationError none))) ∧
    (makeRequest ghostBreaker 0 false adminTransportFailOp
        (fun _ => 0)).breaker = ghostBreaker := by
  have h5 : ∀ n, applyAdminFailures ghostBreaker 0 adminTransportFailOp
      (fun _ => 0) n = ghostBreaker := by
    intro n
    induction n with
    | zero => rfl
    | succ n ih =>
      rw [applyAdminFailures, ih]
      exact (makeRequest_admin_closed_frame ghostBreaker 0 _ _ rfl rfl).1
  refine ⟨h5 5,
    (makeRequest_admin_closed_frame ghostBreaker 0 _ _ rfl rfl).2, ?_, ?_⟩
  · simp [makeRequest, executeWithRetry, runFrom, ghostRetryCfg,
      adminTransportFailOp, authenticatedRequest, shouldRetry, ghostBreaker,
      CircuitBreaker.mk0, CircuitBreaker.call, CircuitBreaker.canAttempt,
      Exc.isInstance]
  · rcases hres : (executeWithRetry ghostRetryCfg adminTransportFailOp
        (fun _ => 0)).1 with e | v <;>
      simp [makeRequest, hres]

/-- Claim C7 (code bug):  Within one `authenticated_request`, the first 401
triggers exactly one reauthentication retry (token cache invalidated and a
second token signed: two misses, two exchanges) which is invisible to the
retry budget and the breaker when it succeeds; a second consecutive 401 is
surfaced as an authentication failure after exactly two exchanges and is not
retried (zero sleeps) — but contrary to the claim it does NOT count toward
circuit-breaker failure accounting: the composed admin call leaves the
breaker untouched. -/
theorem second_401_not_breaker_counted :
    (authenticatedRequest demoJwt 1000 true (.resp r401) (.resp rok)).result
        = .ok (some "posts") ∧
    (authenticatedRequest demoJwt 1000 true (.resp r401)
        (.resp rok)).exchanges = 2 ∧
    (authenticatedRequest demoJwt 1000 true (.resp r401)
        (.resp rok)).jwt.misses = 2 ∧
    (makeRequest ghostBreaker 1000 true
        (fun _ => (authenticatedRequest demoJwt 1000 true (.resp r401)
          (.resp rok)).result) (fun _ => 0)).breaker = ghostBreaker ∧
    (authenticatedRequest demoJwt 1000 true (.resp r401)
        (.resp r401)).result = .error (.authenticationError (some 401)) ∧
    (authenticatedRequest demoJwt 1000 true (.resp r401)
        (.resp r401)).exchanges = 2 ∧
    shouldRetry (.authenticationError (some 401)) = false ∧
    (executeWithRetry ghostRetryCfg
        (fun _ => (authenticatedRequest demoJwt 1000 true (.resp r401)
          (.resp r401)).result) (fun _ => 0)).2 = [] ∧
    (makeRequest ghostBreaker 1000 true
        (fun _ => (authenticatedRequest demoJwt 1000 true (.resp r401)
          (.resp r401)).result) (fun _ => 0)).breaker = ghostBreaker := by
  refine ⟨?_, ?_, ?_,
    (makeRequest_admin_closed_frame ghostBreaker 1000 _ _ rfl rfl).1,
    ?_, ?_, rfl, ?_, 
    (makeRequest_admin_closed_frame ghostBreaker 1000 _ _ rfl rfl).1⟩ <;>
    norm_num [authenticatedRequest, getValidToken, invalidateCache, demoJwt,
      r401, rok, classifyAuthResponse, generateToken, truthyTime,
      executeWithRetry, runFrom, ghostRetryCfg, shouldRetry]

/-! ## Claim C6: the token cache -/

/-- Claim C6:  `get_valid_token(min_remaining)` returns the cached token and
counts a hit exactly when a cached token exists and
`expires_at - now > min_remaining`; otherwise it signs a new token with the
fixed 300-second lifetime, stores it, counts a miss, and returns it.
Concretely (credential `abcdef123456789012345678:aabbcc`): at `t = 1000` the
fresh token has `exp = 1300`; at `t = 1100` with `min_remaining = 60` the
identical token is returned (one hit); at `t = 1250` a new token with
`exp = 1550` is signed (second miss). -/
theorem get_valid_token_spec (s : JWTAuthState) (now mr : ℚ)
    (hnow : 0 ≤ now) (hmr : 0 ≤ mr) :
    ((∃ tok ea, s.token_cache = some tok ∧ s.token_expires_at = some ea ∧
        ea - now > mr) →
      ∃ tok, s.token_cache = some tok ∧
        getValidToken s now mr = (tok, { s with hits := s.hits + 1 })) ∧
    ((¬ ∃ tok ea, s.token_cache = some tok ∧ s.token_expires_at = some ea ∧
        ea - now > mr) →
      getValidToken s now mr
        = (generateToken s now 300,
            { s with misses := s.misses + 1,
                     token_cache := some (generateToken s now 300),
                     token_expires_at := some (now + 300) })) ∧
    (getValidToken demoJwt 1000 60).1.exp = 1300 ∧
    (getValidToken (getValidToken demoJwt 1000 60).2 1100 60).1
        = (getValidToken demoJwt 1000 60).1 ∧
    (getValidToken (getValidToken demoJwt 1000 60).2 1100 60).2.hits = 1 ∧
    (getValidToken (getValidToken (getValidToken demoJwt 1000 60).2 1100
        60).2 1250 60).1.exp = 1550 ∧
    (getValidToken (getValidToken (getValidToken demoJwt 1000 60).2 1100
        60).2 1250 60).2.misses = 2 := by
  refine ⟨?_, ?_, ?_, ?_, ?_, ?_, ?_⟩
  · rintro ⟨tok, ea, hc, he, hgt⟩
    refine ⟨tok, hc, ?_⟩
    have hea0 : ea ≠ 0 := by
      intro h0
      rw [h0] at hgt
      linarith
    simp only [getValidToken, hc, he]
    rw [if_pos ⟨by simp [truthyTime, hea0], by simpa using hgt⟩]
  · intro hn
    rcases hc : s.token_cache with _ | tok
    · simp [getValidToken, hc]
    · rcases he : s.token_expires_at with _ | ea
      · simp [getValidToken, hc, he, truthyTime]
      · have hng : ¬ ea - now > mr := fun hgt => hn ⟨tok, ea, hc, he, hgt⟩
        simp only [getValidToken, hc, he]
        rw [if_neg fun hand => hng (by simpa using hand.2)]
  · norm_num [getValidToken, demoJwt, generateToken]
  · norm_num [getValidToken, demoJwt, generateToken, truthyTime]
  · norm_num [getValidToken, demoJwt, generateToken, truthyTime]
  · norm_num [getValidToken, demoJwt, generateToken, truthyTime]
  · norm_num [getValidToken, demoJwt, generateToken, truthyTime]

/-- Closed instance of `get_valid_token_spec`: the token signed at
`t = 1000` expires at 1300. -/
theorem get_valid_token_spec_witness :
    (getValidToken demoJwt 1000 60).1.exp = 1300 :=
  (get_valid_token_spec demoJwt 1000 60 (by norm_num) (by norm_num)).2.2.1

/-! ## Claim C8: the status-code to error mapping -/

/-- Claim C8 counterexample:  `_handle_response` has no 409 branch: a 409
response falls through every mapped case to `response.raise_for_status()`,
producing the generic `requests.HTTPError` (which drops the response
payload) rather than a dedicated Conflict error — no Conflict error class
exists in the taxonomy `_handle_response` raises from. -/
theorem handle_response_409_cex :
    handleResponse ⟨409, some "conflict-body", none⟩
      = .error (.httpStatusError 409) := by
  rfl

/-- Claim C8 (amended):  The mapping is: 400→BadRequest, 401→Unauthorized,
403→Forbidden, 404→NotFound, 422→BadRequest (validation), 429→RateLimited
carrying `Retry-After` when present, and every status ≥ 500 → ServerError,
each preserving the original status code and the response payload; 409 (like
any other unmapped 4xx) has no dedicated branch and surfaces as the generic
`raise_for_status` HTTP error carrying only the status. -/
theorem handle_response_mapping (r : HttpResponse) :
    (r.status_code = 400 →
      handleResponse r = .error (.badRequestError 400 r.json)) ∧
    (r.status_code = 401 →
      handleResponse r = .error (.unauthorizedError 401 r.json)) ∧
    (r.status_code = 403 →
      handleResponse r = .error (.forbiddenError 403 r.json)) ∧
    (r.status_code = 404 →
      handleResponse r = .error (.notFoundError 404 r.json)) ∧
    (r.status_code = 422 →
      handleResponse r = .error (.badRequestError 422 r.json)) ∧
    (r.status_code = 429 →
      handleResponse r
        = .error (.rateLimitError 429 r.json r.retry_after)) ∧
    (500 ≤ r.status_code →
      handleResponse r = .error (.serverError r.status_code r.json)) ∧
    (r.status_code = 409 →
      handleResponse r = .error (.httpStatusError 409)) := by
  refine ⟨?_, ?_, ?_, ?_, ?_, ?_, ?_, ?_⟩ <;> intro h
  · simp [handleResponse, h]
  · simp [handleResponse, h]
  · simp [handleResponse, h]
  · simp [handleResponse, h]
  · simp [handleResponse, h]
  · simp [handleResponse, h]
  · have h400 : r.status_code ≠ 400 := by omega
    have h401 : r.status_code ≠ 401 := by omega
    have h403 : r.status_code ≠ 403 := by omega
    have h404 : r.status_code ≠ 404 := by omega
    have h422 : r.status_code ≠ 422 := by omega
    have h429 : r.status_code ≠ 429 := by omega
    simp [handleResponse, h400, h401, h403, h404, h422, h429, h]
  · simp [handleResponse, h]

/-- Closed instance of `handle_response_mapping`: a 429 with a parsed
`Retry-After` of 7 seconds maps to `RateLimitError` carrying it. -/
theorem handle_response_mapping_witness :
    handleResponse ⟨429, some "body", some 7⟩
      = .error (.rateLimitError 429 (some "body") (some 7)) :=
  (handle_response_mapping ⟨429, some "body", some 7⟩).2.2.2.2.2.1 rfl

/-! ## Claim C9: credential parsing -/

/-- Claim C9 counterexample:  `JWTAuth.__init__` accepts `"zz:aabb"` even
though the key id `zz` does not match `^[a-f0-9]{24}$`: the pattern is never
checked, so not every malformed credential is rejected at construction. -/
theorem jwt_init_no_pattern_cex :
    (JWTAuth.init "zz:aabb").isOk = true ∧
    keyIdMatchesHex24 "zz".toList = false := by
  exact ⟨rfl, rfl⟩

/-- Claim C9 (amended):  Construction raises `AuthenticationError` exactly when
the credential string has no colon or the part before/after the first colon
is empty; the key-id hex pattern is not enforced, and a secret that is not
valid hex raises the hex-decoder `ValueError` (not `AuthenticationError`) at
construction. -/
theorem jwt_init_rejects (s : String) :
    (JWTAuth.init s = .error .authenticationError ↔
      splitColon1 s.toList = none ∨
        ∃ a b2, splitColon1 s.toList = some (a, b2) ∧ (a = [] ∨ b2 = [])) ∧
    (∀ a b2, splitColon1 s.toList = some (a, b2) → ¬ (a = [] ∨ b2 = []) →
      fromhex b2 = none → JWTAuth.init s = .error .valueError) := by
  constructor
  · constructor
    · intro h
      rcases hsp : splitColon1 s.toList with _ | ⟨a, b2⟩
      · exact Or.inl rfl
      · by_cases hab : a = [] ∨ b2 = []
        · exact Or.inr ⟨a, b2, rfl, hab⟩
        · exfalso
          simp only [JWTAuth.init, hsp] at h
          rw [if_neg hab] at h
          rcases hfh : fromhex b2 with _ | bs <;> rw [hfh] at h <;>
            simp at h
    · rintro (h | ⟨a, b2, hsp, hab⟩)
      · simp only [JWTAuth.init, h]
      · simp only [JWTAuth.init, hsp]
        rw [if_pos hab]
  · intro a b2 hsp hab hfh
    simp only [JWTAuth.init, hsp]
    rw [if_neg hab, hfh]

/-- Closed instance of `jwt_init_rejects`: a string without a colon is
rejected with `AuthenticationError`, and a non-hex secret raises the
`ValueError` instead. -/
theorem jwt_init_rejects_witness :
    JWTAuth.init "nocolon" = .error .authenticationError ∧
    JWTAuth.init "abc:xyz" = .error .valueError :=
  ⟨(jwt_init_rejects "nocolon").1.mpr (Or.inl rfl),
    (jwt_init_rejects "abc:xyz").2 "abc".toList "xyz".toList rfl
      (by simp) rfl⟩

end Ghostctl
